import Mathlib

/-!
Verification of the single-scheme Data Matrix encoder dispatcher
(`dmtxencodesingle.c`): the encode loop `EncodeSingleScheme2`, the
dispatcher `EncodeNextChunk`, the scheme-change procedure
`EncodeChangeScheme`, and the randomization functions
`Randomize253State2` / `Randomize255State2`.

The scheme-specific sub-encoders and the stream primitives live in other
files of the repository; they are either abstracted as parameters
(`SubEncoders`) or modelled from the specification, as marked on each
definition.
-/

/-! ### Randomization functions (from `dmtxencodesingle.c`, lines 238-268) -/

/-- The C local `tmp` of `Randomize253State2` after the conditional
subtraction of 254: `pseudoRandom = ((149 * cwPosition) % 253) + 1`,
`tmp = cwValue + pseudoRandom`, then `if (tmp > 254) tmp -= 254`.
Positions are the non-negative codeword positions, so C `%` agrees with
`Int.emod`. -/
def randomize253Tmp (cwValue : Nat) (cwPosition : Nat) : Int :=
  let pseudoRandom : Int := (149 * (cwPosition : Int)) % 253 + 1
  let tmp : Int := (cwValue : Int) + pseudoRandom
  if tmp > 254 then tmp - 254 else tmp

/-- Function `Randomize253State2` from the source; the return value is `tmp`
converted to `DmtxByte` (conversion to an unsigned byte is reduction
mod 256). -/
def Randomize253State2 (cwValue : Nat) (cwPosition : Nat) : Nat :=
  ((randomize253Tmp cwValue cwPosition) % 256).toNat

/-- The C local `tmp` of `Randomize255State2`:
`pseudoRandom = ((149 * position) % 255) + 1`, `tmp = value + pseudoRandom`,
then `(tmp <= 255) ? tmp : tmp - 256`. -/
def randomize255Tmp (value : Nat) (position : Nat) : Int :=
  let pseudoRandom : Int := (149 * (position : Int)) % 255 + 1
  let tmp : Int := (value : Int) + pseudoRandom
  if tmp ≤ 255 then tmp else tmp - 256

/-- Function `Randomize255State2` from the source; the returned `DmtxByte` is the
value of `tmp` reduced mod 256. -/
def Randomize255State2 (value : Nat) (position : Nat) : Nat :=
  ((randomize255Tmp value position) % 256).toNat

/-- C3 counterexample: at position 28 the pad randomization of 129 returns
254, while the claimed formula `((129 + ((149*p) mod 253) + 1) mod 254)`
gives 0 there, and 254 also escapes the claimed range `0..253`. -/
theorem randomize253_pad_formula_cex :
    Randomize253State2 129 28 = 254 ∧ (129 + (149 * 28) % 253 + 1) % 254 = 0 := by
  decide

/-- C3 (amended): for every output position `p`, the pad randomization of
the pad codeword 129 equals `((129 + ((149*p) mod 253)) mod 254) + 1`
(the code subtracts 254 only when `129 + ((149*p) mod 253) + 1` exceeds
254), and the result stays in the range `1..254`. -/
theorem randomize253_pad_formula (p : Nat) :
    Randomize253State2 129 p = ((129 + (149 * p) % 253) % 254) + 1 ∧
      1 ≤ Randomize253State2 129 p ∧ Randomize253State2 129 p ≤ 254 := by
  have h2 : (149 * (p : Int)) % 253 = ((149 * p) % 253 : Nat) := by
    push_cast
    rfl
  obtain ⟨r, hrlt, hre⟩ : ∃ r, r < 253 ∧ (149 * p) % 253 = r :=
    ⟨_, Nat.mod_lt _ (by norm_num), rfl⟩
  simp only [Randomize253State2, randomize253Tmp]
  rw [h2, hre]
  clear h2 hre
  split <;> omega

/-- C4: for every byte value `v` in `0..255` and every position `p`,
`Randomize255State2 v p = ((v + ((149*p) mod 255) + 1) mod 256)`. -/
theorem randomize255_formula (v p : Nat) (hv : v ≤ 255) :
    Randomize255State2 v p = (v + (149 * p) % 255 + 1) % 256 := by
  have h2 : (149 * (p : Int)) % 255 = ((149 * p) % 255 : Nat) := by
    push_cast
    rfl
  obtain ⟨r, hrlt, hre⟩ : ∃ r, r < 255 ∧ (149 * p) % 255 = r :=
    ⟨_, Nat.mod_lt _ (by norm_num), rfl⟩
  simp only [Randomize255State2, randomize255Tmp]
  rw [h2, hre]
  clear h2 hre
  split <;> omega

/-- Witness for C4 at `v = 200`, `p = 7`. -/
theorem randomize255_formula_witness :
    (200 : Nat) ≤ 255 ∧ Randomize255State2 200 7 = (200 + (149 * 7) % 255 + 1) % 256 :=
  ⟨by decide, randomize255_formula 200 7 (by decide)⟩

/-- C8: subtracting the pseudo-random summand modulo 256 (resp. 254)
recovers the input byte: both randomization functions are invertible at
every position. -/
theorem randomize_inverse (v p : Nat) (hv : v ≤ 255) :
    (((Randomize255State2 v p : Int) - ((149 * (p : Int)) % 255 + 1)) % 256 = v) ∧
      (v ≤ 253 →
        ((Randomize253State2 v p : Int) - ((149 * (p : Int)) % 253 + 1)) % 254 = v) := by
  have h2 : (149 * (p : Int)) % 255 = ((149 * p) % 255 : Nat) := by
    push_cast
    rfl
  have h2' : (149 * (p : Int)) % 253 = ((149 * p) % 253 : Nat) := by
    push_cast
    rfl
  obtain ⟨r, hrlt, hre⟩ : ∃ r, r < 255 ∧ (149 * p) % 255 = r :=
    ⟨_, Nat.mod_lt _ (by norm_num), rfl⟩
  obtain ⟨q, hqlt, hqe⟩ : ∃ q, q < 253 ∧ (149 * p) % 253 = q :=
    ⟨_, Nat.mod_lt _ (by norm_num), rfl⟩
  simp only [Randomize255State2, randomize255Tmp, Randomize253State2, randomize253Tmp]
  rw [h2, h2', hre, hqe]
  clear h2 h2' hre hqe
  constructor
  · split <;> omega
  · intro hv'
    split <;> omega

/-- Witness for C8 at `v = 100`, `p = 3`. -/
theorem randomize_inverse_witness :
    (100 : Nat) ≤ 255 ∧
      ((((Randomize255State2 100 3 : Int) - ((149 * (3 : Int)) % 255 + 1)) % 256 = 100) ∧
        ((100 : Nat) ≤ 253 →
          ((Randomize253State2 100 3 : Int) - ((149 * (3 : Int)) % 253 + 1)) % 254 = 100)) :=
  ⟨by decide, randomize_inverse 100 3 (by decide)⟩

/-- C10: for every byte value `cwValue` in `0..255` and every non-negative
position, the intermediate `tmp` of `Randomize253State2` after the
conditional subtraction satisfies `0 ≤ tmp < 256`, so the assertion
`tmp >= 0 && tmp < 256` cannot fail and the returned byte equals `tmp`. -/
theorem randomize253_tmp_range (v p : Nat) (hv : v ≤ 255) :
    0 ≤ randomize253Tmp v p ∧ randomize253Tmp v p < 256 ∧
      (Randomize253State2 v p : Int) = randomize253Tmp v p := by
  have h2 : (149 * (p : Int)) % 253 = ((149 * p) % 253 : Nat) := by
    push_cast
    rfl
  obtain ⟨r, hrlt, hre⟩ : ∃ r, r < 253 ∧ (149 * p) % 253 = r :=
    ⟨_, Nat.mod_lt _ (by norm_num), rfl⟩
  simp only [Randomize253State2, randomize253Tmp]
  rw [h2, hre]
  clear h2 hre
  split <;> omega

/-- Witness for C10 at `v = 255`, `p = 1`. -/
theorem randomize253_tmp_range_witness :
    (255 : Nat) ≤ 255 ∧
      (0 ≤ randomize253Tmp 255 1 ∧ randomize253Tmp 255 1 < 256 ∧
        (Randomize253State2 255 1 : Int) = randomize253Tmp 255 1) :=
  ⟨by decide, randomize253_tmp_range 255 1 (by decide)⟩

/-! ### Data model: status, schemes, encode stream -/

/-- Status `DmtxStatus` of an encode stream. -/
inductive DmtxStatus where
  | encoding
  | complete
  | invalid
  | fatal
deriving DecidableEq, Repr

/-- Result type `DmtxPassFail`. -/
inductive DmtxPassFail where
  | pass
  | fail
deriving DecidableEq, Repr

/-- Unlatch type `DmtxUnlatch`, an argument of `EncodeChangeScheme`. -/
inductive DmtxUnlatch where
  | explicit
  | implicit
deriving DecidableEq, Repr

/-- Scheme constants: `DmtxScheme` is a C enum; schemes are integers so that the
dispatcher's `default` case (an unrecognized scheme) is representable. -/
def DmtxSchemeAscii : Int := 0

def DmtxSchemeC40 : Int := 1

def DmtxSchemeText : Int := 2

def DmtxSchemeX12 : Int := 3

def DmtxSchemeEdifact : Int := 4

def DmtxSchemeBase256 : Int := 5

/-- Sentinel `DmtxUndefined`. -/
def DmtxUndefined : Int := -1

/-- Reserved codeword constants (from the spec's bit-exact table and
`dmtxstatic.h`). -/
def DmtxValueC40Latch : Nat := 230

def DmtxValueTextLatch : Nat := 239

def DmtxValueX12Latch : Nat := 238

def DmtxValueEdifactLatch : Nat := 240

def DmtxValueBase256Latch : Nat := 231

def DmtxValueCTXUnlatch : Nat := 254

def DmtxValueEdifactUnlatch : Nat := 31

/-- The encode stream: output codewords, input cursor, current scheme,
status, chain counters and failure reason. -/
structure DmtxEncodeStream where
  currentScheme : Int
  inputNext : Nat
  outputChainValueCount : Nat
  outputChainWordCount : Nat
  reason : Int
  status : DmtxStatus
  input : List Nat
  output : List Nat
deriving DecidableEq, Repr

/-! ### Stream primitives (modelled from the spec; they live outside
`dmtxencodesingle.c`) -/

/-- Modelled from the spec: `StreamMarkFatal` ends encoding with status
`Fatal` and records a machine-readable reason (missing from `src/`,
declared in the stream module). -/
def StreamMarkFatal (stream : DmtxEncodeStream) (reason : Int) : DmtxEncodeStream :=
  { stream with status := DmtxStatus.fatal, reason := reason }

/-- Modelled from the spec: the input cursor exposes `has_next`; true while
the read index has not reached the end of the input (missing from `src/`). -/
def StreamInputHasNext (stream : DmtxEncodeStream) : Bool :=
  stream.inputNext < stream.input.length

/-- Modelled from the spec: appending one codeword byte to the output
stream increments the current chain's word count (missing from `src/`). -/
def StreamOutputChainAppend (stream : DmtxEncodeStream) (value : Nat) : DmtxEncodeStream :=
  { stream with
      output := stream.output ++ [value % 256]
      outputChainWordCount := stream.outputChainWordCount + 1 }

/-- Overwrite the last output byte (used by the EDIFACT bit accumulator
when a six-bit value straddles the zero-filled partial trailing byte). -/
def streamSetLastOutput (stream : DmtxEncodeStream) (f : Nat → Nat) : DmtxEncodeStream :=
  { stream with
      output := stream.output.dropLast ++ [f (stream.output.getLastD 0) % 256] }

/-- Modelled from the spec: `EncodeValueAscii` emits one ASCII codeword:
it requires the current scheme to be ASCII, appends the codeword byte and
counts one chain value (missing from `src/`). -/
def EncodeValueAscii (stream : DmtxEncodeStream) (value : Nat) : DmtxEncodeStream :=
  if stream.currentScheme ≠ DmtxSchemeAscii then StreamMarkFatal stream 1
  else
    let s := StreamOutputChainAppend stream value
    { s with outputChainValueCount := s.outputChainValueCount + 1 }

/-- Modelled from the spec: `EncodeUnlatchCTX` emits the CTX unlatch
codeword (value 254), counted as one value of the scheme being exited
(missing from `src/`). -/
def EncodeUnlatchCTX (stream : DmtxEncodeStream) : DmtxEncodeStream :=
  let s := StreamOutputChainAppend stream DmtxValueCTXUnlatch
  { s with outputChainValueCount := s.outputChainValueCount + 1 }

/-- Modelled from the spec: `EncodeValueEdifact` pushes one six-bit value
into the bit stream; four six-bit values pack into three codewords by
concatenating 24 bits MSB-first, partial trailing bytes are zero-filled to
the next byte boundary, and the alignment within the current group is
`outputChainValueCount % 4` (missing from `src/`). -/
def EncodeValueEdifact (stream : DmtxEncodeStream) (value : Nat) : DmtxEncodeStream :=
  if stream.currentScheme ≠ DmtxSchemeEdifact then StreamMarkFatal stream 1
  else
    let v := value % 64
    let s :=
      if stream.outputChainValueCount % 4 = 0 then
        StreamOutputChainAppend stream (v * 4)
      else if stream.outputChainValueCount % 4 = 1 then
        StreamOutputChainAppend (streamSetLastOutput stream (fun b => b + v / 16)) ((v % 16) * 16)
      else if stream.outputChainValueCount % 4 = 2 then
        StreamOutputChainAppend (streamSetLastOutput stream (fun b => b + v / 4)) ((v % 4) * 64)
      else
        streamSetLastOutput stream (fun b => b + v)
    { s with outputChainValueCount := s.outputChainValueCount + 1 }

/-- Modelled from the spec: immediately after the Base 256 latch an
initial header byte with sentinel length 0 is written, randomized under
R255 at its 1-based output position; the chain word count is reset on a
header update (missing from `src/`). -/
def UpdateBase256ChainHeader (stream : DmtxEncodeStream) (perfectSizeIdx : Int) : DmtxEncodeStream :=
  let s :=
    { stream with output := stream.output ++ [Randomize255State2 0 (stream.output.length + 1)] }
  { s with outputChainWordCount := 0 }

/-! ### `EncodeChangeScheme` (from `dmtxencodesingle.c`, lines 164-230) -/

/-- The latch codeword emitted in ASCII for each non-ASCII target scheme
(the second `switch` of `EncodeChangeScheme`); `none` for the `default`
branch. -/
def latchValue (targetScheme : Int) : Option Nat :=
  if targetScheme = DmtxSchemeC40 then some DmtxValueC40Latch
  else if targetScheme = DmtxSchemeText then some DmtxValueTextLatch
  else if targetScheme = DmtxSchemeX12 then some DmtxValueX12Latch
  else if targetScheme = DmtxSchemeEdifact then some DmtxValueEdifactLatch
  else if targetScheme = DmtxSchemeBase256 then some DmtxValueBase256Latch
  else none

/-- The tail of `EncodeChangeScheme` (lines 219-229): set the current
scheme to the target, reset the chain counters, and insert the Base 256
header when latching to Base 256. -/
def EncodeChangeSchemeTail (stream : DmtxEncodeStream) (targetScheme : Int) : DmtxEncodeStream :=
  let s :=
    { stream with
        currentScheme := targetScheme
        outputChainWordCount := 0
        outputChainValueCount := 0 }
  if targetScheme = DmtxSchemeBase256 then UpdateBase256ChainHeader s DmtxUndefined else s

/-- The first `switch` of `EncodeChangeScheme` (lines 171-193): every
latch transits through ASCII, so C40/Text/X12 emit the CTX unlatch
codeword and EDIFACT emits the unlatch six-bit value, each only when
`DmtxUnlatchExplicit` is requested; ASCII and Base 256 need no unlatch
(the `assert` of the `default` branch compiles away under `NDEBUG` and is
modelled as a no-op). -/
def encodeChangeSchemeUnlatch (stream : DmtxEncodeStream) (unlatchType : DmtxUnlatch) :
    DmtxEncodeStream :=
  if stream.currentScheme = DmtxSchemeC40 ∨ stream.currentScheme = DmtxSchemeText ∨
      stream.currentScheme = DmtxSchemeX12 then
    if unlatchType = DmtxUnlatch.explicit then EncodeUnlatchCTX stream else stream
  else if stream.currentScheme = DmtxSchemeEdifact then
    if unlatchType = DmtxUnlatch.explicit then EncodeValueEdifact stream DmtxValueEdifactUnlatch
    else stream
  else stream

/-- The second `switch` of `EncodeChangeScheme` (lines 196-218) plus the
tail: emit the target's latch codeword in ASCII with a `CHKERR` early
return (`CHKSCHEME DmtxSchemeAscii` in the `default` branch), then run
the tail. -/
def encodeChangeSchemeLatch (s2 : DmtxEncodeStream) (targetScheme : Int) : DmtxEncodeStream :=
  match latchValue targetScheme with
  | some v =>
      if (EncodeValueAscii s2 v).status ≠ DmtxStatus.encoding then EncodeValueAscii s2 v
      else EncodeChangeSchemeTail (EncodeValueAscii s2 v) targetScheme
  | none =>
      if s2.currentScheme ≠ DmtxSchemeAscii then StreamMarkFatal s2 1
      else EncodeChangeSchemeTail s2 targetScheme

/-- Procedure `EncodeChangeScheme` from the source: early return when already in the
target scheme; otherwise unlatch (with a `CHKERR` early return), set the
current scheme to ASCII, and latch to the target. -/
def EncodeChangeScheme (stream : DmtxEncodeStream) (targetScheme : Int)
    (unlatchType : DmtxUnlatch) : DmtxEncodeStream :=
  if stream.currentScheme = targetScheme then stream
  else if (encodeChangeSchemeUnlatch stream unlatchType).status ≠ DmtxStatus.encoding then
    encodeChangeSchemeUnlatch stream unlatchType
  else
    encodeChangeSchemeLatch
      { encodeChangeSchemeUnlatch stream unlatchType with currentScheme := DmtxSchemeAscii }
      targetScheme

/-! ### Supporting lemmas about the scheme-change pieces -/

/-- Claim-side description of the bytes a scheme change emits after the
unlatch: the target's latch codeword and, for Base 256, the initial chain
header byte; `len` is the output length before the latch byte. -/
def latchOutput (targetScheme : Int) (len : Nat) : List Nat :=
  match latchValue targetScheme with
  | none => []
  | some v =>
      if targetScheme = DmtxSchemeBase256 then [v, Randomize255State2 0 (len + 2)] else [v]


lemma latchValue_lt_256 (t : Int) (v : Nat) (h : latchValue t = some v) : v < 256 := by
  unfold latchValue at h
  split_ifs at h
  · injection h with h
    subst h
    decide
  · injection h with h
    subst h
    decide
  · injection h with h
    subst h
    decide
  · injection h with h
    subst h
    decide
  · injection h with h
    subst h
    decide

lemma latchValue_base256_ne_none (h : latchValue DmtxSchemeBase256 = none) : False := by
  revert h
  decide

lemma encodeValueAscii_of_ascii (s : DmtxEncodeStream) (v : Nat)
    (hsch : s.currentScheme = DmtxSchemeAscii) (hv : v < 256) :
    EncodeValueAscii s v =
      { s with
          output := s.output ++ [v]
          outputChainWordCount := s.outputChainWordCount + 1
          outputChainValueCount := s.outputChainValueCount + 1 } := by
  unfold EncodeValueAscii StreamOutputChainAppend
  rw [if_neg (by simp [hsch])]
  simp [Nat.mod_eq_of_lt hv]

lemma encodeChangeSchemeTail_fields (s : DmtxEncodeStream) (t : Int) :
    (EncodeChangeSchemeTail s t).outputChainWordCount = 0 ∧
      (EncodeChangeSchemeTail s t).outputChainValueCount = 0 ∧
      (EncodeChangeSchemeTail s t).currentScheme = t ∧
      (EncodeChangeSchemeTail s t).status = s.status ∧
      (EncodeChangeSchemeTail s t).output =
        (if t = DmtxSchemeBase256 then
          s.output ++ [Randomize255State2 0 (s.output.length + 1)]
        else s.output) := by
  unfold EncodeChangeSchemeTail UpdateBase256ChainHeader
  split_ifs <;> simp

lemma encodeChangeSchemeLatch_spec (s2 : DmtxEncodeStream) (t : Int)
    (hsch : s2.currentScheme = DmtxSchemeAscii) (hst : s2.status = DmtxStatus.encoding) :
    (encodeChangeSchemeLatch s2 t).output = s2.output ++ latchOutput t s2.output.length ∧
      (encodeChangeSchemeLatch s2 t).currentScheme = t ∧
      (encodeChangeSchemeLatch s2 t).status = DmtxStatus.encoding ∧
      (encodeChangeSchemeLatch s2 t).outputChainWordCount = 0 ∧
      (encodeChangeSchemeLatch s2 t).outputChainValueCount = 0 := by
  cases hl : latchValue t with
  | none =>
      have ht5 : t ≠ DmtxSchemeBase256 := by
        intro he
        rw [he] at hl
        exact latchValue_base256_ne_none hl
      unfold encodeChangeSchemeLatch latchOutput
      simp only [hl]
      rw [if_neg (by simp [hsch])]
      have h := encodeChangeSchemeTail_fields s2 t
      rw [if_neg ht5] at h
      simp only [List.append_nil]
      exact ⟨h.2.2.2.2, h.2.2.1, by rw [h.2.2.2.1, hst], h.1, h.2.1⟩
  | some v =>
      have hv := latchValue_lt_256 t v hl
      unfold encodeChangeSchemeLatch latchOutput
      simp only [hl]
      rw [encodeValueAscii_of_ascii s2 v hsch hv]
      rw [if_neg (by simp [hst])]
      have h := encodeChangeSchemeTail_fields
        { s2 with
            output := s2.output ++ [v]
            outputChainWordCount := s2.outputChainWordCount + 1
            outputChainValueCount := s2.outputChainValueCount + 1 } t
      refine ⟨?_, h.2.2.1, by rw [h.2.2.2.1]; exact hst, h.1, h.2.1⟩
      rw [h.2.2.2.2]
      split_ifs with h5 <;> simp

lemma encodeChangeSchemeUnlatch_status (stream : DmtxEncodeStream) (u : DmtxUnlatch)
    (hst : stream.status = DmtxStatus.encoding) :
    (encodeChangeSchemeUnlatch stream u).status = DmtxStatus.encoding := by
  unfold encodeChangeSchemeUnlatch EncodeUnlatchCTX EncodeValueEdifact StreamOutputChainAppend
    streamSetLastOutput
  split_ifs <;> simp_all

lemma encodeChangeSchemeUnlatch_length (stream : DmtxEncodeStream) (u : DmtxUnlatch) :
    stream.output.length ≤ (encodeChangeSchemeUnlatch stream u).output.length := by
  unfold encodeChangeSchemeUnlatch EncodeUnlatchCTX EncodeValueEdifact StreamMarkFatal
    StreamOutputChainAppend streamSetLastOutput
  split_ifs <;> simp <;> omega

lemma encodeChangeScheme_shape (stream : DmtxEncodeStream) (t : Int) (u : DmtxUnlatch)
    (hne : stream.currentScheme ≠ t)
    (henc : (encodeChangeSchemeUnlatch stream u).status = DmtxStatus.encoding) :
    EncodeChangeScheme stream t u =
      encodeChangeSchemeLatch
        { encodeChangeSchemeUnlatch stream u with currentScheme := DmtxSchemeAscii } t := by
  unfold EncodeChangeScheme
  rw [if_neg hne, if_neg (by simp [henc])]

/-- A small concrete stream used to instantiate theorems with hypotheses. -/
def exampleStream (sch : Int) (st : DmtxStatus) : DmtxEncodeStream :=
  { currentScheme := sch
    inputNext := 0
    outputChainValueCount := 0
    outputChainWordCount := 0
    reason := 0
    status := st
    input := []
    output := [] }

/-- C9: when the target scheme equals the stream's current scheme,
`EncodeChangeScheme` returns immediately and leaves every field of the
stream unchanged: no codeword is emitted, and status, currentScheme,
outputChainWordCount and outputChainValueCount keep their values. -/
theorem encodeChangeScheme_same_scheme_noop (stream : DmtxEncodeStream) (t : Int)
    (u : DmtxUnlatch) (h : t = stream.currentScheme) :
    EncodeChangeScheme stream t u = stream ∧
      (EncodeChangeScheme stream t u).output = stream.output ∧
      (EncodeChangeScheme stream t u).status = stream.status ∧
      (EncodeChangeScheme stream t u).currentScheme = stream.currentScheme ∧
      (EncodeChangeScheme stream t u).outputChainWordCount = stream.outputChainWordCount ∧
      (EncodeChangeScheme stream t u).outputChainValueCount = stream.outputChainValueCount := by
  have he : EncodeChangeScheme stream t u = stream := by
    unfold EncodeChangeScheme
    rw [if_pos h.symm]
  exact ⟨he, by rw [he], by rw [he], by rw [he], by rw [he], by rw [he]⟩

/-- Witness for C9: changing an encoding C40 stream to C40 is the
identity. -/
theorem encodeChangeScheme_same_scheme_noop_witness :
    (DmtxSchemeC40 = (exampleStream DmtxSchemeC40 DmtxStatus.encoding).currentScheme) ∧
      EncodeChangeScheme (exampleStream DmtxSchemeC40 DmtxStatus.encoding) DmtxSchemeC40
          DmtxUnlatch.explicit =
        exampleStream DmtxSchemeC40 DmtxStatus.encoding :=
  ⟨by decide,
    (encodeChangeScheme_same_scheme_noop (exampleStream DmtxSchemeC40 DmtxStatus.encoding)
        DmtxSchemeC40 DmtxUnlatch.explicit (by decide)).1⟩


lemma latchOutput_base256 (n : Nat) :
    latchOutput DmtxSchemeBase256 n = [DmtxValueBase256Latch, Randomize255State2 0 (n + 2)] := by
  unfold latchOutput
  rw [show latchValue DmtxSchemeBase256 = some DmtxValueBase256Latch from by decide]
  simp

/-- C7: after a completed scheme change to a different scheme that leaves
the stream still encoding, both chain counters are zero, and when the
target is Base 256 an initial chain header byte (the randomized sentinel
length 0, at its 1-based output position) has additionally been written at
the end of the output. -/
theorem encodeChangeScheme_resets_chain (stream : DmtxEncodeStream) (t : Int) (u : DmtxUnlatch)
    (hne : stream.currentScheme ≠ t)
    (hdone : (EncodeChangeScheme stream t u).status = DmtxStatus.encoding) :
    (EncodeChangeScheme stream t u).outputChainWordCount = 0 ∧
      (EncodeChangeScheme stream t u).outputChainValueCount = 0 ∧
      (t = DmtxSchemeBase256 →
        (EncodeChangeScheme stream t u).output.getLast? =
          some (Randomize255State2 0 (EncodeChangeScheme stream t u).output.length) ∧
        stream.output.length + 2 ≤ (EncodeChangeScheme stream t u).output.length) := by
  by_cases hs : (encodeChangeSchemeUnlatch stream u).status = DmtxStatus.encoding
  · have hshape := encodeChangeScheme_shape stream t u hne hs
    obtain ⟨ho, hcs, hstt, hw, hv⟩ :=
      encodeChangeSchemeLatch_spec
        { encodeChangeSchemeUnlatch stream u with currentScheme := DmtxSchemeAscii } t rfl hs
    dsimp only at ho
    rw [hshape]
    refine ⟨hw, hv, ?_⟩
    intro h5
    subst h5
    have hlen := encodeChangeSchemeUnlatch_length stream u
    rw [ho, latchOutput_base256]
    constructor
    · rw [List.getLast?_append]
      simp
    · simp
      omega
  · exfalso
    have heq : EncodeChangeScheme stream t u = encodeChangeSchemeUnlatch stream u := by
      unfold EncodeChangeScheme
      rw [if_neg hne, if_pos (by simp [hs])]
    rw [heq] at hdone
    exact hs hdone

lemma encodeChangeSchemeUnlatch_ctx_explicit (stream : DmtxEncodeStream)
    (hctx : stream.currentScheme = DmtxSchemeC40 ∨ stream.currentScheme = DmtxSchemeText ∨
      stream.currentScheme = DmtxSchemeX12) :
    (encodeChangeSchemeUnlatch stream DmtxUnlatch.explicit).output =
      stream.output ++ [DmtxValueCTXUnlatch] := by
  unfold encodeChangeSchemeUnlatch
  rw [if_pos hctx, if_pos rfl]
  simp [EncodeUnlatchCTX, StreamOutputChainAppend, DmtxValueCTXUnlatch]

lemma encodeChangeSchemeUnlatch_implicit (stream : DmtxEncodeStream) :
    encodeChangeSchemeUnlatch stream DmtxUnlatch.implicit = stream := by
  unfold encodeChangeSchemeUnlatch
  split_ifs <;> simp_all

lemma encodeChangeSchemeUnlatch_edifact_explicit (stream : DmtxEncodeStream)
    (hcur : stream.currentScheme = DmtxSchemeEdifact) :
    encodeChangeSchemeUnlatch stream DmtxUnlatch.explicit =
      EncodeValueEdifact stream DmtxValueEdifactUnlatch := by
  unfold encodeChangeSchemeUnlatch
  rw [if_neg (by rw [hcur]; decide), if_pos hcur, if_pos rfl]

lemma encodeChangeSchemeUnlatch_no_unlatch (stream : DmtxEncodeStream) (u : DmtxUnlatch)
    (h : stream.currentScheme = DmtxSchemeAscii ∨ stream.currentScheme = DmtxSchemeBase256) :
    encodeChangeSchemeUnlatch stream u = stream := by
  unfold encodeChangeSchemeUnlatch
  rcases h with h | h <;> rw [if_neg (by rw [h]; decide), if_neg (by rw [h]; decide)]

lemma encodeValueEdifact_aligned (stream : DmtxEncodeStream)
    (hsch : stream.currentScheme = DmtxSchemeEdifact)
    (hal : stream.outputChainValueCount % 4 = 0) :
    (EncodeValueEdifact stream DmtxValueEdifactUnlatch).output = stream.output ++ [124] := by
  unfold EncodeValueEdifact StreamOutputChainAppend
  rw [if_neg (by simp [hsch])]
  simp [hal, DmtxValueEdifactUnlatch]

/-- C2: a scheme change from a stream in status `Encoding` emits the CTX
unlatch codeword 254 exactly when the current scheme is C40, Text or X12
and the unlatch type is explicit, pushes the EDIFACT unlatch six-bit
value 31 exactly when the current scheme is EDIFACT and the unlatch type
is explicit (the byte 124 = 31·4 when the chain is byte aligned), emits
no unlatch for ASCII or Base 256, then emits the latch codeword matching
the target (C40: 230, Text: 239, X12: 238, EDIFACT: 240, Base 256: 231,
none for ASCII) and sets the current scheme to the target. -/
theorem encodeChangeScheme_emission (stream : DmtxEncodeStream) (t : Int) (u : DmtxUnlatch)
    (hst : stream.status = DmtxStatus.encoding) (hne : stream.currentScheme ≠ t) :
    ((stream.currentScheme = DmtxSchemeC40 ∨ stream.currentScheme = DmtxSchemeText ∨
        stream.currentScheme = DmtxSchemeX12) →
      (u = DmtxUnlatch.explicit →
        (EncodeChangeScheme stream t u).output =
          (stream.output ++ [DmtxValueCTXUnlatch]) ++
            latchOutput t (stream.output.length + 1)) ∧
      (u = DmtxUnlatch.implicit →
        (EncodeChangeScheme stream t u).output =
          stream.output ++ latchOutput t stream.output.length)) ∧
    (stream.currentScheme = DmtxSchemeEdifact →
      (u = DmtxUnlatch.explicit →
        (EncodeChangeScheme stream t u).output =
          (EncodeValueEdifact stream DmtxValueEdifactUnlatch).output ++
            latchOutput t (EncodeValueEdifact stream DmtxValueEdifactUnlatch).output.length ∧
        (stream.outputChainValueCount % 4 = 0 →
          (EncodeValueEdifact stream DmtxValueEdifactUnlatch).output =
            stream.output ++ [124])) ∧
      (u = DmtxUnlatch.implicit →
        (EncodeChangeScheme stream t u).output =
          stream.output ++ latchOutput t stream.output.length)) ∧
    ((stream.currentScheme = DmtxSchemeAscii ∨ stream.currentScheme = DmtxSchemeBase256) →
      (EncodeChangeScheme stream t u).output =
        stream.output ++ latchOutput t stream.output.length) ∧
    ((EncodeChangeScheme stream t u).currentScheme = t ∧
      (EncodeChangeScheme stream t u).status = DmtxStatus.encoding) ∧
    (latchValue DmtxSchemeC40 = some 230 ∧ latchValue DmtxSchemeText = some 239 ∧
      latchValue DmtxSchemeX12 = some 238 ∧ latchValue DmtxSchemeEdifact = some 240 ∧
      latchValue DmtxSchemeBase256 = some 231 ∧ latchValue DmtxSchemeAscii = none ∧
      DmtxValueCTXUnlatch = 254 ∧ DmtxValueEdifactUnlatch = 31) := by
  have hu := encodeChangeSchemeUnlatch_status stream u hst
  have hshape := encodeChangeScheme_shape stream t u hne hu
  obtain ⟨ho, hcs, hstt, hw, hv⟩ :=
    encodeChangeSchemeLatch_spec
      { encodeChangeSchemeUnlatch stream u with currentScheme := DmtxSchemeAscii } t rfl hu
  dsimp only at ho
  refine ⟨?_, ?_, ?_, ⟨by rw [hshape]; exact hcs, by rw [hshape]; exact hstt⟩, by decide⟩
  · intro hctx
    constructor
    · intro hexp
      subst hexp
      rw [hshape, ho, encodeChangeSchemeUnlatch_ctx_explicit stream hctx]
      simp
    · intro himp
      subst himp
      rw [hshape, ho, encodeChangeSchemeUnlatch_implicit]
  · intro hedi
    constructor
    · intro hexp
      subst hexp
      refine ⟨?_, fun hal => encodeValueEdifact_aligned stream hedi hal⟩
      rw [hshape, ho, encodeChangeSchemeUnlatch_edifact_explicit stream hedi]
    · intro himp
      subst himp
      rw [hshape, ho, encodeChangeSchemeUnlatch_implicit]
  · intro hab
    rw [hshape, ho, encodeChangeSchemeUnlatch_no_unlatch stream u hab]

/-- Witness for C7: latching an encoding C40 stream to Base 256. -/
theorem encodeChangeScheme_resets_chain_witness :
    ((exampleStream DmtxSchemeC40 DmtxStatus.encoding).currentScheme ≠ DmtxSchemeBase256) ∧
      (EncodeChangeScheme (exampleStream DmtxSchemeC40 DmtxStatus.encoding) DmtxSchemeBase256
          DmtxUnlatch.explicit).status = DmtxStatus.encoding ∧
      (EncodeChangeScheme (exampleStream DmtxSchemeC40 DmtxStatus.encoding) DmtxSchemeBase256
          DmtxUnlatch.explicit).outputChainWordCount = 0 :=
  ⟨by decide, by decide,
    (encodeChangeScheme_resets_chain (exampleStream DmtxSchemeC40 DmtxStatus.encoding)
        DmtxSchemeBase256 DmtxUnlatch.explicit (by decide) (by decide)).1⟩

/-- Witness for C2: explicitly unlatching an encoding C40 stream back to
ASCII emits exactly the CTX unlatch codeword. -/
theorem encodeChangeScheme_emission_witness :
    ((exampleStream DmtxSchemeC40 DmtxStatus.encoding).status = DmtxStatus.encoding) ∧
      (EncodeChangeScheme (exampleStream DmtxSchemeC40 DmtxStatus.encoding) DmtxSchemeAscii
          DmtxUnlatch.explicit).output =
        ((exampleStream DmtxSchemeC40 DmtxStatus.encoding).output ++ [DmtxValueCTXUnlatch]) ++
          latchOutput DmtxSchemeAscii
            ((exampleStream DmtxSchemeC40 DmtxStatus.encoding).output.length + 1) :=
  ⟨by decide,
    ((encodeChangeScheme_emission (exampleStream DmtxSchemeC40 DmtxStatus.encoding)
          DmtxSchemeAscii DmtxUnlatch.explicit (by decide) (by decide)).1 (by decide)).1 rfl⟩

/-! ### The dispatcher `EncodeNextChunk` and the loop `EncodeSingleScheme2`
(from `dmtxencodesingle.c`, lines 99-158) -/

/-- The scheme-specific sub-encoders (`EncodeNextChunk[Scheme]` /
`CompleteIfDone[Scheme]`), which live in other files of the repository;
the dispatcher is verified for every choice of them. -/
structure SubEncoders where
  EncodeNextChunkAscii : DmtxEncodeStream → DmtxEncodeStream
  CompleteIfDoneAscii : DmtxEncodeStream → Int → DmtxEncodeStream
  EncodeNextChunkCTX : DmtxEncodeStream → Int → DmtxEncodeStream
  CompleteIfDoneCTX : DmtxEncodeStream → Int → DmtxEncodeStream
  EncodeNextChunkEdifact : DmtxEncodeStream → DmtxEncodeStream
  CompleteIfDoneEdifact : DmtxEncodeStream → Int → DmtxEncodeStream
  EncodeNextChunkBase256 : DmtxEncodeStream → DmtxEncodeStream
  CompleteIfDoneBase256 : DmtxEncodeStream → Int → DmtxEncodeStream

/-- The `switch (stream->currentScheme)` of `EncodeNextChunk`
(lines 134-157): each recognized scheme runs its `EncodeNextChunk[Scheme]`
followed (after a `CHKERR`) by its `CompleteIfDone[Scheme]`; the `default`
branch marks the stream fatal. -/
def EncodeNextChunkDispatch (sub : SubEncoders) (stream : DmtxEncodeStream)
    (requestedSizeIdx : Int) : DmtxEncodeStream :=
  if stream.currentScheme = DmtxSchemeAscii then
    let s1 := sub.EncodeNextChunkAscii stream
    if s1.status ≠ DmtxStatus.encoding then s1 else sub.CompleteIfDoneAscii s1 requestedSizeIdx
  else if stream.currentScheme = DmtxSchemeC40 ∨ stream.currentScheme = DmtxSchemeText ∨
      stream.currentScheme = DmtxSchemeX12 then
    let s1 := sub.EncodeNextChunkCTX stream requestedSizeIdx
    if s1.status ≠ DmtxStatus.encoding then s1 else sub.CompleteIfDoneCTX s1 requestedSizeIdx
  else if stream.currentScheme = DmtxSchemeEdifact then
    let s1 := sub.EncodeNextChunkEdifact stream
    if s1.status ≠ DmtxStatus.encoding then s1 else sub.CompleteIfDoneEdifact s1 requestedSizeIdx
  else if stream.currentScheme = DmtxSchemeBase256 then
    let s1 := sub.EncodeNextChunkBase256 stream
    if s1.status ≠ DmtxStatus.encoding then s1 else sub.CompleteIfDoneBase256 s1 requestedSizeIdx
  else
    StreamMarkFatal stream 1

/-- Dispatcher `EncodeNextChunk` from the source: change to the target scheme first
when necessary (`CHKERR` and `CHKSCHEME targetScheme` after the change),
then dispatch on the current scheme. -/
def EncodeNextChunk (sub : SubEncoders) (stream : DmtxEncodeStream) (targetScheme : Int)
    (requestedSizeIdx : Int) : DmtxEncodeStream :=
  if stream.currentScheme ≠ targetScheme then
    let sc := EncodeChangeScheme stream targetScheme DmtxUnlatch.explicit
    if sc.status ≠ DmtxStatus.encoding then sc
    else if sc.currentScheme ≠ targetScheme then StreamMarkFatal sc 1
    else EncodeNextChunkDispatch sub sc requestedSizeIdx
  else EncodeNextChunkDispatch sub stream requestedSizeIdx

/-- The `while (stream->status == DmtxStatusEncoding)` loop of
`EncodeSingleScheme2`, with explicit fuel; `none` when the loop has not
exited within the given fuel. -/
def EncodeStreamLoop (step : DmtxEncodeStream → DmtxEncodeStream) :
    Nat → DmtxEncodeStream → Option DmtxEncodeStream
  | 0, s => if s.status = DmtxStatus.encoding then none else some s
  | fuel + 1, s =>
      if s.status = DmtxStatus.encoding then EncodeStreamLoop step fuel (step s) else some s

/-- Function `EncodeSingleScheme2` from the source: fail fatally unless the stream
starts in ASCII; run `EncodeNextChunk` while the status is `Encoding`;
afterwards fail unless the status is `Complete` and the input is
exhausted. -/
def EncodeSingleScheme2 (sub : SubEncoders) (fuel : Nat) (stream : DmtxEncodeStream)
    (targetScheme : Int) (requestedSizeIdx : Int) : Option (DmtxPassFail × DmtxEncodeStream) :=
  if stream.currentScheme ≠ DmtxSchemeAscii then
    some (DmtxPassFail.fail, StreamMarkFatal stream 1)
  else
    match EncodeStreamLoop (fun s => EncodeNextChunk sub s targetScheme requestedSizeIdx)
        fuel stream with
    | none => none
    | some s =>
        if s.status ≠ DmtxStatus.complete ∨ StreamInputHasNext s = true then
          some (DmtxPassFail.fail, s)
        else some (DmtxPassFail.pass, s)

/-- Identity sub-encoders, used to instantiate the dispatcher theorems. -/
def idSubEncoders : SubEncoders :=
  { EncodeNextChunkAscii := fun s => s
    CompleteIfDoneAscii := fun s _ => s
    EncodeNextChunkCTX := fun s _ => s
    CompleteIfDoneCTX := fun s _ => s
    EncodeNextChunkEdifact := fun s => s
    CompleteIfDoneEdifact := fun s _ => s
    EncodeNextChunkBase256 := fun s => s
    CompleteIfDoneBase256 := fun s _ => s }

/-- C5: for a stream in status `Encoding`, `EncodeNextChunk` first changes
the scheme when the current scheme differs from the target (returning the
changed stream untouched by any sub-encoder if the change leaves
`Encoding`, and marking the stream fatal if the change did not land on
the target), then dispatches on the current scheme to that scheme's
`EncodeNextChunk` function followed by its `CompleteIfDone` function;
each dispatched call short-circuits as soon as the status leaves
`Encoding`, and a current scheme outside the six recognized schemes marks
the stream `Fatal`. -/
theorem encodeNextChunk_dispatch_structure (sub : SubEncoders) (stream : DmtxEncodeStream)
    (t : Int) (r : Int) (hst : stream.status = DmtxStatus.encoding) :
    (stream.currentScheme ≠ t →
      ((EncodeChangeScheme stream t DmtxUnlatch.explicit).status ≠ DmtxStatus.encoding →
        EncodeNextChunk sub stream t r = EncodeChangeScheme stream t DmtxUnlatch.explicit) ∧
      ((EncodeChangeScheme stream t DmtxUnlatch.explicit).status = DmtxStatus.encoding →
        ((EncodeChangeScheme stream t DmtxUnlatch.explicit).currentScheme ≠ t →
          EncodeNextChunk sub stream t r =
            StreamMarkFatal (EncodeChangeScheme stream t DmtxUnlatch.explicit) 1 ∧
          (EncodeNextChunk sub stream t r).status = DmtxStatus.fatal) ∧
        ((EncodeChangeScheme stream t DmtxUnlatch.explicit).currentScheme = t →
          EncodeNextChunk sub stream t r =
            EncodeNextChunkDispatch sub (EncodeChangeScheme stream t DmtxUnlatch.explicit) r))) ∧
    (stream.currentScheme = t →
      EncodeNextChunk sub stream t r = EncodeNextChunkDispatch sub stream r) ∧
    (stream.currentScheme = DmtxSchemeAscii →
      ((sub.EncodeNextChunkAscii stream).status ≠ DmtxStatus.encoding →
        EncodeNextChunkDispatch sub stream r = sub.EncodeNextChunkAscii stream) ∧
      ((sub.EncodeNextChunkAscii stream).status = DmtxStatus.encoding →
        EncodeNextChunkDispatch sub stream r =
          sub.CompleteIfDoneAscii (sub.EncodeNextChunkAscii stream) r)) ∧
    ((stream.currentScheme = DmtxSchemeC40 ∨ stream.currentScheme = DmtxSchemeText ∨
        stream.currentScheme = DmtxSchemeX12) →
      ((sub.EncodeNextChunkCTX stream r).status ≠ DmtxStatus.encoding →
        EncodeNextChunkDispatch sub stream r = sub.EncodeNextChunkCTX stream r) ∧
      ((sub.EncodeNextChunkCTX stream r).status = DmtxStatus.encoding →
        EncodeNextChunkDispatch sub stream r =
          sub.CompleteIfDoneCTX (sub.EncodeNextChunkCTX stream r) r)) ∧
    (stream.currentScheme = DmtxSchemeEdifact →
      ((sub.EncodeNextChunkEdifact stream).status ≠ DmtxStatus.encoding →
        EncodeNextChunkDispatch sub stream r = sub.EncodeNextChunkEdifact stream) ∧
      ((sub.EncodeNextChunkEdifact stream).status = DmtxStatus.encoding →
        EncodeNextChunkDispatch sub stream r =
          sub.CompleteIfDoneEdifact (sub.EncodeNextChunkEdifact stream) r)) ∧
    (stream.currentScheme = DmtxSchemeBase256 →
      ((sub.EncodeNextChunkBase256 stream).status ≠ DmtxStatus.encoding →
        EncodeNextChunkDispatch sub stream r = sub.EncodeNextChunkBase256 stream) ∧
      ((sub.EncodeNextChunkBase256 stream).status = DmtxStatus.encoding →
        EncodeNextChunkDispatch sub stream r =
          sub.CompleteIfDoneBase256 (sub.EncodeNextChunkBase256 stream) r)) ∧
    ((stream.currentScheme ≠ DmtxSchemeAscii ∧ stream.currentScheme ≠ DmtxSchemeC40 ∧
        stream.currentScheme ≠ DmtxSchemeText ∧ stream.currentScheme ≠ DmtxSchemeX12 ∧
        stream.currentScheme ≠ DmtxSchemeEdifact ∧ stream.currentScheme ≠ DmtxSchemeBase256) →
      EncodeNextChunkDispatch sub stream r = StreamMarkFatal stream 1 ∧
      (EncodeNextChunkDispatch sub stream r).status = DmtxStatus.fatal) := by
  refine ⟨?_, ?_, ?_, ?_, ?_, ?_, ?_⟩
  · intro hne
    constructor
    · intro hsc
      simp only [EncodeNextChunk]
      rw [if_pos hne, if_pos hsc]
    · intro hsc
      constructor
      · intro hcs
        have he : EncodeNextChunk sub stream t r =
            StreamMarkFatal (EncodeChangeScheme stream t DmtxUnlatch.explicit) 1 := by
          simp only [EncodeNextChunk]
          rw [if_pos hne, if_neg (by simp [hsc]), if_pos hcs]
        exact ⟨he, by rw [he]; rfl⟩
      · intro hcs
        simp only [EncodeNextChunk]
        rw [if_pos hne, if_neg (by simp [hsc]), if_neg (by simp [hcs])]
  · intro heq
    simp only [EncodeNextChunk]
    rw [if_neg (by simp [heq])]
  · intro hcur
    constructor
    · intro hsc
      simp only [EncodeNextChunkDispatch]
      rw [if_pos hcur, if_pos hsc]
    · intro hsc
      simp only [EncodeNextChunkDispatch]
      rw [if_pos hcur, if_neg (by simp [hsc])]
  · intro hcur
    have hna : ¬ stream.currentScheme = DmtxSchemeAscii := by
      rcases hcur with h | h | h <;> rw [h] <;> decide
    constructor
    · intro hsc
      simp only [EncodeNextChunkDispatch]
      rw [if_neg hna, if_pos hcur, if_pos hsc]
    · intro hsc
      simp only [EncodeNextChunkDispatch]
      rw [if_neg hna, if_pos hcur, if_neg (by simp [hsc])]
  · intro hcur
    constructor
    · intro hsc
      simp only [EncodeNextChunkDispatch]
      rw [if_neg (by rw [hcur]; decide), if_neg (by rw [hcur]; decide), if_pos hcur, if_pos hsc]
    · intro hsc
      simp only [EncodeNextChunkDispatch]
      rw [if_neg (by rw [hcur]; decide), if_neg (by rw [hcur]; decide), if_pos hcur,
        if_neg (by simp [hsc])]
  · intro hcur
    constructor
    · intro hsc
      simp only [EncodeNextChunkDispatch]
      rw [if_neg (by rw [hcur]; decide), if_neg (by rw [hcur]; decide),
        if_neg (by rw [hcur]; decide), if_pos hcur, if_pos hsc]
    · intro hsc
      simp only [EncodeNextChunkDispatch]
      rw [if_neg (by rw [hcur]; decide), if_neg (by rw [hcur]; decide),
        if_neg (by rw [hcur]; decide), if_pos hcur, if_neg (by simp [hsc])]
  · intro hsix
    have he : EncodeNextChunkDispatch sub stream r = StreamMarkFatal stream 1 := by
      simp only [EncodeNextChunkDispatch]
      rw [if_neg hsix.1, if_neg (by simp only [not_or]; exact ⟨hsix.2.1, hsix.2.2.1, hsix.2.2.2.1⟩),
        if_neg hsix.2.2.2.2.1, if_neg hsix.2.2.2.2.2]
    exact ⟨he, by rw [he]; rfl⟩

/-- Witness for C5: dispatching an ASCII stream already in the target
scheme goes straight to the dispatch switch. -/
theorem encodeNextChunk_dispatch_structure_witness :
    (exampleStream DmtxSchemeAscii DmtxStatus.encoding).status = DmtxStatus.encoding ∧
      EncodeNextChunk idSubEncoders (exampleStream DmtxSchemeAscii DmtxStatus.encoding)
          DmtxSchemeAscii (-1) =
        EncodeNextChunkDispatch idSubEncoders (exampleStream DmtxSchemeAscii DmtxStatus.encoding)
          (-1) :=
  ⟨by decide,
    (encodeNextChunk_dispatch_structure idSubEncoders
        (exampleStream DmtxSchemeAscii DmtxStatus.encoding) DmtxSchemeAscii (-1)
        (by decide)).2.1 (by decide)⟩

/-- C6: a stream whose current scheme is not ASCII is marked `Fatal` and
`EncodeSingleScheme2` returns `DmtxFail` without performing any encoding
step (the result does not depend on the sub-encoders or the fuel, and
output and input cursor are untouched). -/
theorem encodeSingleScheme2_non_ascii_fatal (sub : SubEncoders) (fuel : Nat)
    (stream : DmtxEncodeStream) (t : Int) (r : Int)
    (h : stream.currentScheme ≠ DmtxSchemeAscii) :
    EncodeSingleScheme2 sub fuel stream t r =
        some (DmtxPassFail.fail, StreamMarkFatal stream 1) ∧
      (StreamMarkFatal stream 1).status = DmtxStatus.fatal ∧
      (StreamMarkFatal stream 1).output = stream.output ∧
      (StreamMarkFatal stream 1).inputNext = stream.inputNext ∧
      (StreamMarkFatal stream 1).currentScheme = stream.currentScheme := by
  refine ⟨?_, rfl, rfl, rfl, rfl⟩
  unfold EncodeSingleScheme2
  rw [if_pos h]

/-- Witness for C6: a C40 stream fails fatally regardless of input. -/
theorem encodeSingleScheme2_non_ascii_fatal_witness :
    (exampleStream DmtxSchemeC40 DmtxStatus.encoding).currentScheme ≠ DmtxSchemeAscii ∧
      EncodeSingleScheme2 idSubEncoders 3 (exampleStream DmtxSchemeC40 DmtxStatus.encoding) 0
          (-1) =
        some (DmtxPassFail.fail,
          StreamMarkFatal (exampleStream DmtxSchemeC40 DmtxStatus.encoding) 1) :=
  ⟨by decide,
    (encodeSingleScheme2_non_ascii_fatal idSubEncoders 3
        (exampleStream DmtxSchemeC40 DmtxStatus.encoding) 0 (-1) (by decide)).1⟩

lemma encodeStreamLoop_spec (step : DmtxEncodeStream → DmtxEncodeStream) :
    ∀ (fuel : Nat) (s s' : DmtxEncodeStream), EncodeStreamLoop step fuel s = some s' →
      ∃ n, n ≤ fuel ∧ s' = step^[n] s ∧
        (∀ k, k < n → (step^[k] s).status = DmtxStatus.encoding) ∧
        s'.status ≠ DmtxStatus.encoding := by
  intro fuel
  induction fuel with
  | zero =>
      intro s s' h
      unfold EncodeStreamLoop at h
      split_ifs at h with hs
      injection h with h
      subst h
      exact ⟨0, Nat.le_refl 0, rfl, fun k hk => absurd hk (Nat.not_lt_zero k), hs⟩
  | succ n ih =>
      intro s s' h
      unfold EncodeStreamLoop at h
      split_ifs at h with hs
      · obtain ⟨m, hm, he, hall, hne⟩ := ih (step s) s' h
        refine ⟨m + 1, by omega, ?_, ?_, hne⟩
        · rw [Function.iterate_succ_apply]
          exact he
        · intro k hk
          cases k with
          | zero => simpa using hs
          | succ j =>
              rw [Function.iterate_succ_apply]
              exact hall j (by omega)
      · injection h with h
        subst h
        exact ⟨0, Nat.zero_le _, rfl, fun k hk => absurd hk (Nat.not_lt_zero k), hs⟩

/-- C1: when the stream starts in ASCII and `EncodeSingleScheme2`
terminates, the final stream is reached by iterating `EncodeNextChunk`
only through states whose status is `Encoding`, the loop exits with a
non-`Encoding` status, and the call returns `DmtxPass` exactly when the
status is `Complete` and the input cursor is exhausted (`DmtxFail` in
every other case). -/
theorem encodeSingleScheme2_loop_result (sub : SubEncoders) (fuel : Nat)
    (stream : DmtxEncodeStream) (t : Int) (r : Int) (res : DmtxPassFail)
    (s' : DmtxEncodeStream) (hascii : stream.currentScheme = DmtxSchemeAscii)
    (h : EncodeSingleScheme2 sub fuel stream t r = some (res, s')) :
    (∃ n, n ≤ fuel ∧ s' = (fun s => EncodeNextChunk sub s t r)^[n] stream ∧
      (∀ k, k < n → ((fun s => EncodeNextChunk sub s t r)^[k] stream).status =
        DmtxStatus.encoding) ∧
      s'.status ≠ DmtxStatus.encoding) ∧
    (res = DmtxPassFail.pass ↔
      (s'.status = DmtxStatus.complete ∧ StreamInputHasNext s' = false)) := by
  unfold EncodeSingleScheme2 at h
  rw [if_neg (by simp [hascii])] at h
  cases hl : EncodeStreamLoop (fun s => EncodeNextChunk sub s t r) fuel stream with
  | none =>
      rw [hl] at h
      cases h
  | some s0 =>
      rw [hl] at h
      dsimp only at h
      split_ifs at h with hc
      · simp only [Option.some.injEq, Prod.mk.injEq] at h
        obtain ⟨hres, hs0⟩ := h
        subst hs0
        subst hres
        refine ⟨encodeStreamLoop_spec _ fuel stream _ hl, ?_⟩
        constructor
        · intro hpf
          exact DmtxPassFail.noConfusion hpf
        · rintro ⟨hcomp, hnext⟩
          rcases hc with hc | hc
          · exact absurd hcomp hc
          · rw [hnext] at hc
            cases hc
      · simp only [Option.some.injEq, Prod.mk.injEq] at h
        obtain ⟨hres, hs0⟩ := h
        subst hs0
        subst hres
        refine ⟨encodeStreamLoop_spec _ fuel stream _ hl, ?_⟩
        push_neg at hc
        exact ⟨fun _ => ⟨hc.1, by simpa using hc.2⟩, fun _ => rfl⟩

/-- Witness for C1: an already complete ASCII stream with exhausted input
passes. -/
theorem encodeSingleScheme2_loop_result_witness :
    (exampleStream DmtxSchemeAscii DmtxStatus.complete).currentScheme = DmtxSchemeAscii ∧
      (DmtxPassFail.pass = DmtxPassFail.pass ↔
        ((exampleStream DmtxSchemeAscii DmtxStatus.complete).status = DmtxStatus.complete ∧
          StreamInputHasNext (exampleStream DmtxSchemeAscii DmtxStatus.complete) = false)) :=
  ⟨by decide,
    (encodeSingleScheme2_loop_result idSubEncoders 1
        (exampleStream DmtxSchemeAscii DmtxStatus.complete) 0 (-1) DmtxPassFail.pass
        (exampleStream DmtxSchemeAscii DmtxStatus.complete) (by decide) (by decide)).2⟩
